import Mathlib

/-!
Verification of the outage detection and notification state machine of the
internet connectivity monitor (src/monitor.py).

The Python code is shallowly embedded as follows.
- Wall-clock instants (datetime.now()) are modelled as natural numbers
  (seconds since some epoch); all now() calls within one cycle read the same
  instant.  The strftime rendering of an instant and the str(timedelta)
  rendering of a duration are modelled as decimal rendering of the number.
- The prober is modelled as a function from the attempt index to the Boolean
  reachability result of that attempt; a probe invocation that raises is
  modelled with Except (see ping below).
- The notifier (NotificationService.send_notification) is modelled as a
  function from the message string to its Boolean delivery outcome; the
  Python method catches every exception internally and returns a bool, so it
  never raises into the caller.
- Effect counts (probe calls, time.sleep calls, messages handed to the
  notifier) are returned alongside results so that theorems can speak about
  how many external calls a piece of code performs.
-/

/-! ### Debouncer: InternetMonitor.is_internet_down (src/monitor.py lines 195-217) -/

/-- Observable outcome of one debounce evaluation: the returned verdict
together with the number of ping invocations and of time.sleep invocations
performed while computing it. -/
structure DebounceTrace where
  is_down : Bool
  probe_calls : Nat
  sleep_calls : Nat
deriving Repr, DecidableEq

/-- The body of the loop `for attempt in range(threshold)` of
is_internet_down.  `attempt` is the current loop index and `remaining` the
number of indices still to be visited, so that `attempt + remaining =
threshold` at every call.  A successful ping returns False (not down)
immediately; a failed ping sleeps when `attempt < threshold - 1` and
continues; exhausting the range returns True (down). -/
def is_internet_down_go (probe : Nat → Bool) (threshold : Nat) :
    Nat → Nat → DebounceTrace
  | _, 0 => { is_down := true, probe_calls := 0, sleep_calls := 0 }
  | attempt, remaining + 1 =>
    if probe attempt then
      { is_down := false, probe_calls := 1, sleep_calls := 0 }
    else
      let rest := is_internet_down_go probe threshold (attempt + 1) remaining
      { is_down := rest.is_down,
        probe_calls := rest.probe_calls + 1,
        sleep_calls := rest.sleep_calls + (if attempt < threshold - 1 then 1 else 0) }

/-- InternetMonitor.is_internet_down: run up to `threshold` sequential probe
attempts, returning False on the first success and True when all fail. -/
def is_internet_down (probe : Nat → Bool) (threshold : Nat) : DebounceTrace :=
  is_internet_down_go probe threshold 0 threshold

theorem is_internet_down_go_first_success (probe : Nat → Bool) (threshold : Nat) :
    ∀ (j a r : Nat), a + r = threshold → j < r →
      (∀ i, i < j → probe (a + i) = false) → probe (a + j) = true →
      is_internet_down_go probe threshold a r =
        { is_down := false, probe_calls := j + 1, sleep_calls := j } := by
  intro j
  induction j with
  | zero =>
    intro a r har hj hfail hsucc
    match r, hj with
    | r + 1, _ =>
      have ha : probe a = true := by simpa using hsucc
      simp [is_internet_down_go, ha]
  | succ j ih =>
    intro a r har hj hfail hsucc
    match r, hj with
    | r + 1, hj =>
      have ha : probe a = false := by simpa using hfail 0 (Nat.succ_pos j)
      have hrest := ih (a + 1) r (by omega) (by omega)
        (fun i hi => by
          have := hfail (i + 1) (by omega)
          simpa [Nat.add_assoc, Nat.add_comm 1 i] using this)
        (by
          have : a + 1 + j = a + (j + 1) := by omega
          rw [this]; exact hsucc)
      have hsleep : a < threshold - 1 := by omega
      simp [is_internet_down_go, ha, hrest, hsleep]

theorem is_internet_down_go_all_fail (probe : Nat → Bool) (threshold : Nat) :
    ∀ (r a : Nat), a + r = threshold →
      (∀ i, a ≤ i → i < threshold → probe i = false) →
      is_internet_down_go probe threshold a r =
        { is_down := true, probe_calls := r, sleep_calls := r - 1 } := by
  intro r
  induction r with
  | zero =>
    intro a _ _
    simp [is_internet_down_go]
  | succ r ih =>
    intro a har hfail
    have ha : probe a = false := hfail a (Nat.le_refl a) (by omega)
    have hrest := ih (a + 1) (by omega)
      (fun i h1 h2 => hfail i (by omega) h2)
    rcases Nat.eq_zero_or_pos r with hr | hr
    · subst hr
      have hsleep : ¬ a < threshold - 1 := by omega
      simp [is_internet_down_go, ha, hrest, hsleep]
    · have hsleep : a < threshold - 1 := by omega
      have : r - 1 + 1 = r := by omega
      simp [is_internet_down_go, ha, hrest, hsleep, this]

/-- C4: with threshold N, if the first k probes fail and probe k+1 succeeds
(k < N), is_internet_down returns a not-down verdict after exactly k+1 probe
calls (and k retry sleeps). -/
theorem debounce_first_success (probe : Nat → Bool) (N k : Nat)
    (hN : 1 ≤ N) (hk : k < N)
    (hfail : ∀ i, i < k → probe i = false) (hsucc : probe k = true) :
    is_internet_down probe N =
      { is_down := false, probe_calls := k + 1, sleep_calls := k } := by
  unfold is_internet_down
  exact is_internet_down_go_first_success probe N k 0 N (by omega) hk
    (fun i hi => by simpa using hfail i hi) (by simpa using hsucc)

/-- Witness for C4: N = 3, k = 1, probe failing at attempt 0 and succeeding
at attempt 1. -/
theorem debounce_first_success_witness :
    (1 ≤ 3 ∧ 1 < 3 ∧ (∀ i, i < 1 → (fun j => j == 1) i = false) ∧
      (fun j => j == 1) 1 = true) ∧
    is_internet_down (fun j => j == 1) 3 =
      { is_down := false, probe_calls := 2, sleep_calls := 1 } :=
  ⟨⟨by decide, by decide, by decide, by decide⟩,
    debounce_first_success (fun j => j == 1) 3 1 (by decide) (by decide)
      (by decide) (by decide)⟩

/-- C5: with threshold N ≥ 1 and all N probes failing, is_internet_down
returns a down verdict after exactly N probe calls and exactly N - 1
inter-attempt sleeps. -/
theorem debounce_all_fail (probe : Nat → Bool) (N : Nat)
    (hN : 1 ≤ N) (hfail : ∀ i, i < N → probe i = false) :
    is_internet_down probe N =
      { is_down := true, probe_calls := N, sleep_calls := N - 1 } := by
  unfold is_internet_down
  exact is_internet_down_go_all_fail probe N N 0 (by omega)
    (fun i _ h2 => hfail i h2)

/-- Witness for C5: N = 2 with an always-failing probe. -/
theorem debounce_all_fail_witness :
    (1 ≤ 2 ∧ (∀ i, i < 2 → (fun _ => false) i = false)) ∧
    is_internet_down (fun _ => false) 2 =
      { is_down := true, probe_calls := 2, sleep_calls := 1 } :=
  ⟨⟨by decide, by decide⟩,
    debounce_all_fail (fun _ => false) 2 (by decide) (by decide)⟩

/-- C10: with threshold 0 the loop body of is_internet_down never runs: no
probe is called, no sleep happens, and the function falls through to its
final `return True`, so every cycle is reported down regardless of the
prober's answers. -/
theorem threshold_zero_always_down (probe : Nat → Bool) :
    is_internet_down probe 0 =
      { is_down := true, probe_calls := 0, sleep_calls := 0 } := rfl

/-! ### Wall-clock and message rendering -/

/-- The strftime formatting of an instant, modelled as decimal rendering. -/
def formatTime (t : Nat) : String := toString t

/-- The str(timedelta) rendering of an outage duration, modelled as decimal
rendering.  Like str(timedelta) it never produces the empty string, so
Python's truthiness test on it coincides with the Option being some. -/
def formatDuration (d : Nat) : String := toString d

/-- The message queued by handle_outage (src/monitor.py line 251). -/
def lost_message (now : Nat) : String :=
  "Internet connection lost! - " ++ formatTime now

/-- The message queued by handle_recovery (src/monitor.py lines 258-264):
with an outage-duration clause when get_outage_duration returned a string,
without it otherwise. -/
def restored_message (now : Nat) : Option String → String
  | some dur =>
      "Internet connection restored! - " ++ formatTime now ++
        " - outage duration: " ++ dur
  | none => "Internet connection restored! - " ++ formatTime now

/-! ### Monitor state (src/monitor.py lines 160-171) -/

/-- The mutable fields of InternetMonitor relevant to the outage state
machine and statistics (src/monitor.py lines 165-171; consecutive_failures
is only ever written by __init__ and shadowed by a local in
is_internet_down, so it carries no information and is omitted). -/
structure MonitorState where
  message_queue : List String
  outage_start_time : Option Nat
  was_connected : Bool
  total_checks : Nat
  total_failures : Nat
deriving Repr, DecidableEq

/-- The state set up by InternetMonitor.__init__. -/
def initialState : MonitorState :=
  { message_queue := []
    outage_start_time := none
    was_connected := true
    total_checks := 0
    total_failures := 0 }

/-- InternetMonitor.queue_message: append to the tail of the queue. -/
def queue_message (s : MonitorState) (message : String) : MonitorState :=
  { s with message_queue := s.message_queue ++ [message] }

/-- The while-loop of send_queued_messages (src/monitor.py lines 235-237):
pop the head, hand it to the notifier (whose Boolean result is discarded),
repeat until the queue is empty.  Returns the final queue content together
with the messages handed to the notifier, in call order. -/
def send_loop (notifier : String → Bool) : List String → List String × List String
  | [] => ([], [])
  | message :: rest =>
      let _ := notifier message
      ((send_loop notifier rest).1, message :: (send_loop notifier rest).2)

/-- InternetMonitor.send_queued_messages. -/
def send_queued_messages (notifier : String → Bool) (s : MonitorState) :
    MonitorState × List String :=
  ({ s with message_queue := (send_loop notifier s.message_queue).1 },
    (send_loop notifier s.message_queue).2)

/-- InternetMonitor.get_outage_duration: some rendered duration when an
outage start is recorded, none otherwise. -/
def get_outage_duration (s : MonitorState) (now : Nat) : Option String :=
  match s.outage_start_time with
  | some start => some (formatDuration (now - start))
  | none => none

/-- InternetMonitor.handle_outage: record the outage start and queue the
lost message.  The second component is the list of messages enqueued by
this call, in order (observable trace). -/
def handle_outage (now : Nat) (s : MonitorState) : MonitorState × List String :=
  (queue_message { s with outage_start_time := some now } (lost_message now),
    [lost_message now])

/-- InternetMonitor.handle_recovery: queue the restored message (with the
duration clause when an outage start was recorded), drain the queue through
the notifier, then clear the outage start.  Components: new state, messages
enqueued by this call, messages handed to the notifier by this call. -/
def handle_recovery (notifier : String → Bool) (now : Nat) (s : MonitorState) :
    MonitorState × List String × List String :=
  let msg := restored_message now (get_outage_duration s now)
  let s1 := queue_message s msg
  let r := send_queued_messages notifier s1
  ({ r.1 with outage_start_time := none }, [msg], r.2)

/-- Messages enqueued and messages handed to the notifier during one cycle
of the monitoring loop, in order. -/
structure CycleOutput where
  enqueued : List String
  sent : List String
deriving Repr, DecidableEq

/-- One iteration of the while-loop of InternetMonitor.monitor
(src/monitor.py lines 285-306), with the debounced verdict `is_down` as
input: bump total_checks, bump total_failures on a down verdict, then fire
the transition on a change of verdict relative to was_connected (logging
and sleeping have no effect on the state and are omitted). -/
def monitor_cycle (notifier : String → Bool) (now : Nat) (is_down : Bool)
    (s0 : MonitorState) : MonitorState × CycleOutput :=
  let s1 : MonitorState := { s0 with total_checks := s0.total_checks + 1 }
  let result : Bool := !is_down
  let s2 : MonitorState :=
    if !result then { s1 with total_failures := s1.total_failures + 1 } else s1
  if !result && s2.was_connected then
    let r := handle_outage now s2
    ({ r.1 with was_connected := false }, { enqueued := r.2, sent := [] })
  else if result && !s2.was_connected then
    let r := handle_recovery notifier now s2
    ({ r.1 with was_connected := true }, { enqueued := r.2.1, sent := r.2.2 })
  else
    (s2, { enqueued := [], sent := [] })

/-- Run the monitoring loop over a finite list of cycles, each given as the
wall-clock instant of the cycle and its debounced verdict.  Returns the
final state and the per-cycle outputs, in order. -/
def monitor_run (notifier : String → Bool) :
    List (Nat × Bool) → MonitorState → MonitorState × List CycleOutput
  | [], s => (s, [])
  | (now, is_down) :: rest, s =>
      ((monitor_run notifier rest (monitor_cycle notifier now is_down s).1).1,
        (monitor_cycle notifier now is_down s).2 ::
          (monitor_run notifier rest (monitor_cycle notifier now is_down s).1).2)

/-! ### Round trip and flap suppression (monitor loop transitions) -/

/-- C1: from the Connected initial state, the verdict sequence [down, up]
enqueues exactly the lost message and then the restored message, in that
order; the restored message carries the duration clause (rendered from
now - outage start); and after the recovering cycle the outage start record
is cleared. -/
theorem round_trip_lost_then_restored (notifier : String → Bool) (t1 t2 : Nat) :
    ((monitor_run notifier [(t1, true), (t2, false)] initialState).2.map
        CycleOutput.enqueued).flatten =
      [lost_message t1, restored_message t2 (some (formatDuration (t2 - t1)))] ∧
    restored_message t2 (some (formatDuration (t2 - t1))) =
      "Internet connection restored! - " ++ formatTime t2 ++
        " - outage duration: " ++ formatDuration (t2 - t1) ∧
    (monitor_run notifier [(t1, true), (t2, false)] initialState).1.outage_start_time
      = none := by
  refine ⟨rfl, rfl, rfl⟩

/-- C2: from the Connected initial state, the verdict sequence
[down, down, down] enqueues the lost message on the first cycle and nothing
on the two repeated down cycles. -/
theorem no_flap_spam (notifier : String → Bool) (t1 t2 t3 : Nat) :
    (monitor_run notifier [(t1, true), (t2, true), (t3, true)] initialState).2.map
        CycleOutput.enqueued = [[lost_message t1], [], []] := rfl

/-! ### Outage record invariant -/

theorem monitor_cycle_outage_iff (notifier : String → Bool) (now : Nat)
    (is_down : Bool) (s : MonitorState)
    (h : s.outage_start_time.isSome = !s.was_connected) :
    (monitor_cycle notifier now is_down s).1.outage_start_time.isSome
      = !(monitor_cycle notifier now is_down s).1.was_connected := by
  cases is_down <;> cases hw : s.was_connected <;>
    simp [monitor_cycle, handle_outage, handle_recovery, queue_message,
      send_queued_messages, get_outage_duration, hw] <;>
    simpa [hw] using h

theorem monitor_run_outage_iff (notifier : String → Bool)
    (cycles : List (Nat × Bool)) :
    ∀ s : MonitorState, s.outage_start_time.isSome = !s.was_connected →
      (monitor_run notifier cycles s).1.outage_start_time.isSome
        = !(monitor_run notifier cycles s).1.was_connected := by
  induction cycles with
  | nil => intro s h; simpa [monitor_run] using h
  | cons c rest ih =>
    intro s h
    obtain ⟨now, d⟩ := c
    simp only [monitor_run]
    exact ih _ (monitor_cycle_outage_iff notifier now d s h)

theorem monitor_cycle_set_enqueues_lost (notifier : String → Bool) (now : Nat)
    (is_down : Bool) (s : MonitorState) (t : Nat)
    (h : (monitor_cycle notifier now is_down s).1.outage_start_time = some t) :
    s.outage_start_time = some t ∨
      lost_message t ∈ (monitor_cycle notifier now is_down s).2.enqueued := by
  cases is_down with
  | false =>
    cases hw : s.was_connected with
    | false =>
      exfalso
      simp [monitor_cycle, handle_recovery, queue_message,
        send_queued_messages, get_outage_duration, hw] at h
    | true => exact Or.inl (by simpa [monitor_cycle, hw] using h)
  | true =>
    cases hw : s.was_connected with
    | false => exact Or.inl (by simpa [monitor_cycle, hw] using h)
    | true =>
      have ht : t = now := by
        have h2 := h
        simp [monitor_cycle, handle_outage, queue_message, hw] at h2
        omega
      subst ht
      exact Or.inr (by simp [monitor_cycle, handle_outage, queue_message, hw])

/-- C3: after processing any verdict sequence from the initial state, the
outage start record is present exactly when the state is Disconnected; and
whenever a further cycle leaves the record present, either it was already
present with the same start instant, or the lost message carrying that very
instant was enqueued by that same cycle (the transition that set it). -/
theorem outage_record_invariant (notifier : String → Bool)
    (cycles : List (Nat × Bool)) (now : Nat) (is_down : Bool) :
    ((monitor_run notifier cycles initialState).1.outage_start_time.isSome
       = !(monitor_run notifier cycles initialState).1.was_connected) ∧
    (∀ t, (monitor_cycle notifier now is_down
            (monitor_run notifier cycles initialState).1).1.outage_start_time
          = some t →
      (monitor_run notifier cycles initialState).1.outage_start_time = some t ∨
        lost_message t ∈ (monitor_cycle notifier now is_down
            (monitor_run notifier cycles initialState).1).2.enqueued) := by
  constructor
  · exact monitor_run_outage_iff notifier cycles initialState (by rfl)
  · intro t ht
    exact monitor_cycle_set_enqueues_lost notifier now is_down _ t ht

/-- Witness for C3: the empty history followed by a down cycle at instant 5
sets the record to 5 and enqueues the lost message for instant 5 in that
very cycle. -/
theorem outage_record_invariant_witness :
    (((monitor_run (fun _ => true) [] initialState).1.outage_start_time.isSome
        = !(monitor_run (fun _ => true) [] initialState).1.was_connected) ∧
      ((monitor_run (fun _ => true) [] initialState).1.outage_start_time = some 5 ∨
        lost_message 5 ∈ (monitor_cycle (fun _ => true) 5 true
            (monitor_run (fun _ => true) [] initialState).1).2.enqueued)) ∧
    (monitor_cycle (fun _ => true) 5 true
        (monitor_run (fun _ => true) [] initialState).1).1.outage_start_time
      = some 5 :=
  ⟨⟨(outage_record_invariant (fun _ => true) [] 5 true).1,
      (outage_record_invariant (fun _ => true) [] 5 true).2 5 rfl⟩, rfl⟩

/-! ### Statistics (src/monitor.py lines 269-276 and 286-290) -/

/-- The dictionary returned by InternetMonitor.get_statistics.  Python's
true division is modelled over the rationals. -/
structure Statistics where
  total_checks : Nat
  total_failures : Nat
  success_rate : Rat
  current_status : String
deriving Repr

/-- InternetMonitor.get_statistics. -/
def get_statistics (s : MonitorState) : Statistics :=
  { total_checks := s.total_checks
    total_failures := s.total_failures
    success_rate :=
      if s.total_checks > 0 then
        ((s.total_checks : Rat) - (s.total_failures : Rat))
          / (s.total_checks : Rat) * 100
      else 0
    current_status := if s.was_connected then "Connected" else "Disconnected" }

theorem monitor_cycle_counts (notifier : String → Bool) (now : Nat)
    (is_down : Bool) (s : MonitorState) :
    (monitor_cycle notifier now is_down s).1.total_checks = s.total_checks + 1 ∧
    (monitor_cycle notifier now is_down s).1.total_failures
      = s.total_failures + (if is_down then 1 else 0) := by
  cases is_down <;> cases hw : s.was_connected <;>
    simp [monitor_cycle, handle_outage, handle_recovery, queue_message,
      send_queued_messages, get_outage_duration, hw]

theorem monitor_run_counts (notifier : String → Bool)
    (cycles : List (Nat × Bool)) :
    ∀ s : MonitorState,
      (monitor_run notifier cycles s).1.total_checks
        = s.total_checks + cycles.length ∧
      (monitor_run notifier cycles s).1.total_failures
        = s.total_failures + (cycles.filter (fun c => c.2)).length := by
  induction cycles with
  | nil => intro s; simp [monitor_run]
  | cons c rest ih =>
    intro s
    obtain ⟨now, d⟩ := c
    simp only [monitor_run]
    obtain ⟨h1, h2⟩ := ih (monitor_cycle notifier now d s).1
    obtain ⟨g1, g2⟩ := monitor_cycle_counts notifier now d s
    refine ⟨by rw [h1, g1]; simp; omega, ?_⟩
    rw [h2, g2]
    cases d <;> simp [List.filter_cons] <;> omega

/-- C6: after processing a verdict sequence of length M with F down
verdicts from the initial state, total_checks is M, total_failures is F,
and get_statistics reports success_rate = (M - F) / M * 100, or 0 when
M = 0. -/
theorem statistics_monotonicity (notifier : String → Bool)
    (cycles : List (Nat × Bool)) :
    (monitor_run notifier cycles initialState).1.total_checks = cycles.length ∧
    (monitor_run notifier cycles initialState).1.total_failures
      = (cycles.filter (fun c => c.2)).length ∧
    (get_statistics (monitor_run notifier cycles initialState).1).success_rate
      = (if cycles.length > 0 then
          ((cycles.length : Rat) - ((cycles.filter (fun c => c.2)).length : Rat))
            / (cycles.length : Rat) * 100
         else 0) := by
  obtain ⟨h1, h2⟩ := monitor_run_counts notifier cycles initialState
  have h1' : (monitor_run notifier cycles initialState).1.total_checks
      = cycles.length := by simpa [initialState] using h1
  have h2' : (monitor_run notifier cycles initialState).1.total_failures
      = (cycles.filter (fun c => c.2)).length := by simpa [initialState] using h2
  exact ⟨h1', h2', by simp [get_statistics, h1', h2']⟩

/-! ### Queue drain (src/monitor.py lines 233-237) -/

theorem send_loop_spec (notifier : String → Bool) (q : List String) :
    send_loop notifier q = ([], q) := by
  induction q with
  | nil => rfl
  | cons m rest ih => simp [send_loop, ih]

/-- C7: for every queue content and every notifier (including one failing
every delivery), send_queued_messages leaves the queue empty and hands the
notifier exactly the original queue content, head first (FIFO, each message
exactly once, nothing re-queued). -/
theorem queue_drain_complete (notifier : String → Bool) (s : MonitorState) :
    (send_queued_messages notifier s).1.message_queue = [] ∧
    (send_queued_messages notifier s).2 = s.message_queue := by
  simp [send_queued_messages, send_loop_spec]

/-! ### Probe invocation faults (src/monitor.py lines 173-193) -/

/-- InternetMonitor.ping.  The underlying os.system invocation is modelled
by its outcome: Except.ok with the process exit code, or Except.error with
the exception raised by the invocation.  The try/except of ping catches
every exception, logs it, and returns False; with a normal exit code the
method returns whether the code is zero.  The Except return type of the
embedding records whether ping itself lets an exception escape to its
caller. -/
def ping (sys_result : Except String Int) : Except String Bool :=
  match sys_result with
  | Except.ok response => Except.ok (response == 0)
  | Except.error _ => Except.ok false

/-- Counterexample to C9 as stated: when the underlying invocation raises,
ping returns an ordinary False result instead of propagating the
exception. -/
theorem probe_fault_counterexample :
    ping (Except.error "malformed target") = Except.ok false ∧
    ping (Except.error "malformed target") ≠ Except.error "malformed target" :=
  ⟨rfl, fun h => Except.noConfusion h⟩

/-- C9 amended: an exception raised during the probe invocation is caught
inside ping, which returns False — the fault is treated as an ordinary
unreachable result and never propagates to the monitoring loop. -/
theorem probe_fault_swallowed (e : String) :
    ping (Except.error e) = Except.ok false := rfl

/-! ### Configuration acceptance (src/monitor.py lines 14-38, 317-325) -/

/-- The Config dataclass.  Python integers are modelled as Int where the
code lets negative values through (check_interval, retry_delay); the
failure threshold is modelled as Nat because range(n) in is_internet_down
treats every non-positive n as the empty range, exactly as 0. -/
structure Config where
  ip_address : String := "8.8.8.8"
  failure_threshold : Nat := 2
  check_interval : Int := 10
  log_file : String := "internet_monitor.log"
  prowl_api_key : Option String := none
  max_retries : Nat := 3
  retry_delay : Int := 2
  log_successful_pings : Bool := false
deriving Repr, DecidableEq

/-- The startup path of the program: the Config dataclass (src/monitor.py
lines 14-38) only stores field values — it has no __post_init__ and no
range checks — and main (lines 317-325) constructs the monitor and calls
monitor() directly.  No validation of failure_threshold or check_interval
happens anywhere before the monitoring loop, so startup accepts every
configuration value unconditionally. -/
def startup_config (c : Config) : Except String Config := Except.ok c

/-- Evidence for C8 failing on the code: the configuration with
failure_threshold = 0 and check_interval = -5 is accepted by startup, and
the monitoring loop then runs with it — its first cycle performs zero
probes, declares the cycle down even though the prober would answer
reachable on every attempt, and transitions the machine to Disconnected. -/
theorem invalid_config_enters_loop :
    startup_config { failure_threshold := 0, check_interval := -5 }
      = Except.ok { failure_threshold := 0, check_interval := -5 } ∧
    is_internet_down (fun _ => true) 0 =
      { is_down := true, probe_calls := 0, sleep_calls := 0 } ∧
    (monitor_cycle (fun _ => true) 0
        (is_internet_down (fun _ => true) 0).is_down initialState).1.was_connected
      = false :=
  ⟨rfl, rfl, rfl⟩
